import Mathlib

/-!
# Verification of the AG Insights quota-monitoring core

Shallow embedding of the repository's core pipeline:

* `src/src/core/quota_manager.ts` — response parsing (`parseResponse`,
  `parsePromptCredits`, `parseModel`), countdown formatting (`formatTime`),
  the single-flight fetch state machine (`fetchQuotaStart` / `fetchQuotaFinish`),
  request-error normalization (`request`), and polling timer management
  (`startPolling` / `stopPolling`).
* `src/src/extension.ts` — the orchestrator's quota-error handler
  (`handleQuotaError`).
* `src/src/core/process_finder.ts` — process detection (`detectProcessInfo`,
  `findConnectPort`, `testPort`, `extractPort`, `extractCsrfToken`).

Conventions of the embedding:

* JSON / JavaScript numbers are modelled as `ℚ` (the values in play are
  decimal literals; no floating rounding is relevant to the claims except
  where noted).  Optional JavaScript values (`undefined`) are `Option`.
* `Date` values are modelled as integer epoch milliseconds; the
  locale-dependent `toLocaleDateString` rendering is an abstract parameter
  `locale : Int → String`.
* Asynchronous effects (the HTTPS transport, `setInterval` timers, the
  VS Code display) are modelled as explicit events and emitted action lists;
  the host delivers at most one completion per issued request.
-/

namespace AGInsights

/-! ## Data model (src/src/utils/types.ts) -/

/-- The `planInfo` object inside `planStatus`.  `monthlyPromptCredits` is sent as
a decimal string and converted with `Number(...)`; we model the converted
numeric value, `none` standing for an absent field (whose `Number` conversion
would be `NaN`). -/
structure PlanInfo where
  monthlyPromptCredits : Option ℚ
  deriving Repr, DecidableEq

/-- The `planStatus` object inside `userStatus`. -/
structure PlanStatus where
  planInfo : Option PlanInfo
  availablePromptCredits : Option ℚ
  deriving Repr, DecidableEq

/-- The `modelOrAlias` object of a per-model entry. -/
structure ModelOrAlias where
  model : String
  deriving Repr, DecidableEq

/-- The `quotaInfo` object of a per-model entry.  The declared interface has a
required `remainingFraction : number`, but `parseResponse` defensively treats
it as possibly absent, and also reads an undeclared `status` field; we model
both as optional.  `resetTime` is sent as a date string; we model the parsed
`new Date(...)` value as epoch milliseconds. -/
structure QuotaInfoRaw where
  remainingFraction : Option ℚ
  status : Option String
  resetTime : Int
  deriving Repr, DecidableEq

/-- One entry of `cascadeModelConfigData.clientModelConfigs`. -/
structure RawModelConfig where
  label : String
  modelOrAlias : Option ModelOrAlias
  quotaInfo : Option QuotaInfoRaw
  deriving Repr, DecidableEq

/-- The `cascadeModelConfigData` object. -/
structure CascadeModelConfigData where
  clientModelConfigs : List RawModelConfig
  deriving Repr, DecidableEq

/-- An object carrying an optional `email` field (the `user` / `userProfile` /
`user_profile` shapes probed by the email fallback chain). -/
structure EmailCarrier where
  email : Option String
  deriving Repr, DecidableEq

/-- The snake-case `user_status` shape probed by the email fallback chain. -/
structure SnakeUserStatus where
  user : Option EmailCarrier
  deriving Repr, DecidableEq

/-- The `userStatus` object of the GetUserStatus response. -/
structure UserStatus where
  planStatus : Option PlanStatus
  cascadeModelConfigData : Option CascadeModelConfigData
  email : Option String
  user : Option EmailCarrier
  userProfile : Option EmailCarrier
  user_profile : Option EmailCarrier
  deriving Repr, DecidableEq

/-- The GetUserStatus response (`ServerUserStatusResponse`), including the
undeclared top-level shapes probed by the email fallback chain. -/
structure ServerUserStatusResponse where
  userStatus : UserStatus
  user : Option EmailCarrier
  userProfile : Option EmailCarrier
  user_status : Option SnakeUserStatus
  deriving Repr, DecidableEq

/-- The `PromptCreditsInfo` part of the snapshot. -/
structure PromptCreditsInfo where
  available : ℚ
  monthly : ℚ
  usedPercentage : ℚ
  remainingPercentage : ℚ
  deriving Repr, DecidableEq

/-- The `ModelQuotaInfo` part of the snapshot.  The object built by `parseResponse`
carries an `isNA` field beyond the declared interface (the map callback is
`any`-typed); we include it. -/
structure ModelQuotaInfo where
  label : String
  modelId : String
  remainingFraction : ℚ
  remainingPercentage : ℚ
  isExhausted : Bool
  isNA : Bool
  resetTime : Int
  timeUntilReset : Int
  timeUntilResetFormatted : String
  deriving Repr, DecidableEq

/-- The `QuotaSnapshot`: the normalized value published per successful fetch. -/
structure QuotaSnapshot where
  timestamp : Int
  email : Option String
  promptCredits : Option PromptCreditsInfo
  models : List ModelQuotaInfo
  deriving Repr, DecidableEq

/-! ## Countdown formatting (QuotaManager.formatTime, quota_manager.ts 232–258) -/

/-- Embeds `QuotaManager.formatTime`.  `ms` is the remaining duration in
milliseconds; `dateStr` stands for `resetTime.toLocaleDateString(...)`
(locale-dependent, abstracted).  `Math.ceil(ms / 60000)` for positive `ms`
is `(ms + 59999) / 60000` in integer division. -/
def formatTime (ms : Int) (dateStr : String) : String :=
  if ms ≤ 0 then "Ready"
  else
    let mins : Nat := (ms.toNat + 59999) / 60000
    let duration : String :=
      if mins < 60 then toString mins ++ "m"
      else if mins < 24 * 60 then
        toString (mins / 60) ++ "h " ++ toString (mins % 60) ++ "m"
      else
        toString (mins / (60 * 24)) ++ "d " ++
          toString ((mins % (60 * 24)) / 60) ++ "h"
    duration ++ " (" ++ dateStr ++ ")"

/-! ## Response parsing (QuotaManager.parseResponse, quota_manager.ts 136–230) -/

/-- The prompt-credits part of `parseResponse` (quota_manager.ts 140–155).
Credits are computed only when `planInfo` exists and
`planStatus.availablePromptCredits` is defined and `monthly > 0`; an absent
`monthlyPromptCredits` converts to `NaN`, and `NaN > 0` is false. -/
def parsePromptCredits (data : ServerUserStatusResponse) : Option PromptCreditsInfo :=
  let planStatus := data.userStatus.planStatus
  let planInfo := planStatus.bind (·.planInfo)
  let availableCredits := planStatus.bind (·.availablePromptCredits)
  match planInfo, availableCredits with
  | some pi, some available =>
    match pi.monthlyPromptCredits with
    | some monthly =>
      if 0 < monthly then
        some { available := available
               monthly := monthly
               usedPercentage := (monthly - available) / monthly * 100
               remainingPercentage := available / monthly * 100 }
      else none
    | none => none
  | _, _ => none

/-- The per-model part of `parseResponse` (quota_manager.ts 163–199), applied
to an entry `m` that passed the `.filter((m) => m.quotaInfo)` with
`qi = m.quotaInfo`.  The source computes
`rawFraction = m.quotaInfo.remainingFraction !== undefined ? Number(...) : 0`,
so `rawFraction` is always a number (`some _` here); the subsequent
`!== undefined` / `=== undefined` tests are on this already-defaulted value. -/
def parseModel (now : Int) (locale : Int → String) (m : RawModelConfig)
    (qi : QuotaInfoRaw) : ModelQuotaInfo :=
  let resetTime : Int := qi.resetTime
  let diff : Int := resetTime - now
  let rawFraction : Option ℚ :=
    some (match qi.remainingFraction with
          | some v => v
          | none => 0)
  let remainingFraction : ℚ :=
    match rawFraction with
    | some v => v
    | none => 0
  let isExhausted : Bool :=
    (rawFraction.isSome && decide (remainingFraction ≤ 1 / 1000)) ||
      (qi.status == some "EXHAUSTED")
  let isNA : Bool :=
    rawFraction.isNone && (qi.status != some "EXHAUSTED")
  { label := m.label
    modelId :=
      match m.modelOrAlias with
      | some a => if a.model = "" then "unknown" else a.model
      | none => "unknown"
    remainingFraction := remainingFraction
    remainingPercentage := remainingFraction * 100
    isExhausted := isExhausted
    isNA := isNA
    resetTime := resetTime
    timeUntilReset := diff
    timeUntilResetFormatted := formatTime diff (locale resetTime) }

/-- Models JavaScript `a || b` on optional strings (`""` and `undefined` are falsy). -/
def jsOrStr (a b : Option String) : Option String :=
  match a with
  | some s => if s = "" then b else some s
  | none => b

/-- The email fallback chain of `parseResponse` (quota_manager.ts 207–213). -/
def findEmail (data : ServerUserStatusResponse) : Option String :=
  let us := data.userStatus
  jsOrStr us.email
    (jsOrStr (us.user.bind (·.email))
      (jsOrStr (us.userProfile.bind (·.email))
        (jsOrStr (us.user_profile.bind (·.email))
          (jsOrStr (data.user.bind (·.email))
            (jsOrStr (data.userProfile.bind (·.email))
              ((data.user_status.bind (·.user)).bind (·.email)))))))

/-- Embeds `QuotaManager.parseResponse` (quota_manager.ts 136–230). -/
def parseResponse (now : Int) (locale : Int → String)
    (data : ServerUserStatusResponse) : QuotaSnapshot :=
  let rawModels :=
    match data.userStatus.cascadeModelConfigData with
    | some d => d.clientModelConfigs
    | none => []
  let models : List ModelQuotaInfo :=
    rawModels.filterMap fun m =>
      (m.quotaInfo).map fun qi => parseModel now locale m qi
  { timestamp := now
    email := findEmail data
    promptCredits := parsePromptCredits data
    models := models }

/-! ## Quota manager state and single-flight fetch (quota_manager.ts 11–134) -/

/-- The mutable fields of a `QuotaManager` instance.  Callbacks are modelled
by their presence (`onUpdate` / `onError` registration); the repeating timer
by the identity of the live `setInterval` handle, if any. -/
structure MgrState where
  port : Int
  csrfToken : String
  hasUpdateCallback : Bool
  hasErrorCallback : Bool
  pollingTimer : Option Nat
  isFetching : Bool
  deriving Repr, DecidableEq

/-- Observable effects emitted by the quota manager. -/
inductive MgrAction where
  | httpRequest
  | publishUpdate (snapshot : QuotaSnapshot)
  | publishError (msg : String)
  deriving Repr, DecidableEq

/-- Embeds `QuotaManager.init` (quota_manager.ts 19–22). -/
def mgrInit (s : MgrState) (port : Int) (csrfToken : String) : MgrState :=
  { s with port := port, csrfToken := csrfToken }

/-- Embeds `QuotaManager.onUpdate` (quota_manager.ts 24–26). -/
def mgrOnUpdate (s : MgrState) : MgrState :=
  { s with hasUpdateCallback := true }

/-- Embeds `QuotaManager.onError` (quota_manager.ts 28–30). -/
def mgrOnError (s : MgrState) : MgrState :=
  { s with hasErrorCallback := true }

/-- Embeds `QuotaManager.stopPolling` (quota_manager.ts 38–43): clear the repeating
timer if present; every other field is untouched. -/
def stopPolling (s : MgrState) : MgrState :=
  { s with pollingTimer := none }

/-- The synchronous prefix of `QuotaManager.fetchQuota` (quota_manager.ts
45–63): if a fetch is already in flight the call returns at once with no
effect; otherwise the in-flight flag is set and the HTTPS request is issued. -/
def fetchQuotaStart (s : MgrState) : MgrState × List MgrAction :=
  if s.isFetching then (s, [])
  else ({ s with isFetching := true }, [MgrAction.httpRequest])

/-- The continuation of `QuotaManager.fetchQuota` after the awaited request
settles (quota_manager.ts 65–84): a successful response is parsed and
published through the update callback, a rejection is caught and published
through the error callback, and `finally` clears the in-flight flag. -/
def fetchQuotaFinish (now : Int) (locale : Int → String) (s : MgrState)
    (result : Except String ServerUserStatusResponse) : MgrState × List MgrAction :=
  match result with
  | Except.ok data =>
    ({ s with isFetching := false },
      if s.hasUpdateCallback then [MgrAction.publishUpdate (parseResponse now locale data)]
      else [])
  | Except.error msg =>
    ({ s with isFetching := false },
      if s.hasErrorCallback then [MgrAction.publishError msg] else [])

/-- Events delivered to the quota manager by the single-threaded host:
a `fetchQuota()` invocation (timer-triggered or manual — both run the same
method), or the settling of the in-flight request. -/
inductive MgrEvent where
  | fetchCall
  | complete (result : Except String ServerUserStatusResponse)

/-- One host-scheduler step of the quota manager.  A `complete` event is the
continuation of the single in-flight fetch, so it only fires while
`isFetching` is set. -/
def mgrStep (now : Int) (locale : Int → String) (s : MgrState) :
    MgrEvent → MgrState × List MgrAction
  | MgrEvent.fetchCall => fetchQuotaStart s
  | MgrEvent.complete r =>
    if s.isFetching then fetchQuotaFinish now locale s r else (s, [])

/-- Run a sequence of host events, accumulating emitted actions in order. -/
def runMgr (now : Int) (locale : Int → String) :
    MgrState → List MgrEvent → MgrState × List MgrAction
  | s, [] => (s, [])
  | s, e :: es =>
    let (s₁, as₁) := mgrStep now locale s e
    let (s₂, as₂) := runMgr now locale s₁ es
    (s₂, as₁ ++ as₂)

/-- The callback publications among a list of emitted actions. -/
def published (l : List MgrAction) : List MgrAction :=
  l.filter fun a =>
    match a with
    | MgrAction.publishUpdate _ => true
    | MgrAction.publishError _ => true
    | MgrAction.httpRequest => false

/-! ## Request-error normalization (QuotaManager.request, quota_manager.ts 91–134) -/

/-- What the HTTPS transport does with the issued request: a response with a
status code (possibly absent) and a body, a connection-level error event
carrying a message, or the 5-second timeout. -/
inductive HttpEvent where
  | response (statusCode : Option Nat) (body : String)
  | connError (msg : String)
  | timeout

/-- Embeds `QuotaManager.request` (quota_manager.ts 91–134): connection errors
reject with the error itself, timeout rejects with `Request timeout`, a
status ≥ 400 rejects with a descriptive message, and a `JSON.parse` failure
(modelled by the abstract parser `parseJson` returning `none`) rejects with
`Invalid JSON response`.  Every failure mode is a single normalized `Error`
value (here: its message). -/
def request (parseJson : String → Option ServerUserStatusResponse) :
    HttpEvent → Except String ServerUserStatusResponse
  | HttpEvent.connError msg => Except.error msg
  | HttpEvent.timeout => Except.error "Request timeout"
  | HttpEvent.response statusCode body =>
    match statusCode with
    | some c =>
      if 400 ≤ c then
        Except.error ("Request failed with status " ++ toString c ++ ": " ++ body)
      else
        match parseJson body with
        | some data => Except.ok data
        | none => Except.error "Invalid JSON response"
    | none =>
      match parseJson body with
      | some data => Except.ok data
      | none => Except.error "Invalid JSON response"

/-- A whole `fetchQuota()` run against a transport event `ev`: the
single-flight guard, then the request, then publication.  Total — the
`try`/`catch`/`finally` of the source means no exception escapes to the
caller (the polling timer loop). -/
def fetchQuotaRun (now : Int) (locale : Int → String)
    (parseJson : String → Option ServerUserStatusResponse)
    (s : MgrState) (ev : HttpEvent) : MgrState × List MgrAction :=
  if s.isFetching then (s, [])
  else fetchQuotaFinish now locale { s with isFetching := true } (request parseJson ev)

/-! ## Polling timers (QuotaManager.startPolling / stopPolling, quota_manager.ts 32–43) -/

/-- The quota manager together with the host's table of live `setInterval`
timers.  `nextId` generates fresh timer handles. -/
structure TimerSys where
  mgr : MgrState
  liveTimers : List Nat
  nextId : Nat
  deriving Repr, DecidableEq

/-- Embeds `QuotaManager.stopPolling` at system level: `clearInterval` removes the
held handle from the host's live-timer table. -/
def sysStopPolling (t : TimerSys) : TimerSys :=
  { t with
    mgr := stopPolling t.mgr
    liveTimers :=
      match t.mgr.pollingTimer with
      | some id => t.liveTimers.erase id
      | none => t.liveTimers }

/-- Embeds `QuotaManager.startPolling` (quota_manager.ts 32–36) at system level:
first `stopPolling()`, then an immediate `fetchQuota()` (which touches no
timer), then `setInterval` installs a fresh handle. -/
def sysStartPolling (t : TimerSys) : TimerSys :=
  let t₁ := sysStopPolling t
  { t₁ with
    mgr := { t₁.mgr with pollingTimer := some t₁.nextId }
    liveTimers := t₁.liveTimers ++ [t₁.nextId]
    nextId := t₁.nextId + 1 }

/-- A call to `startPolling` or `stopPolling`. -/
inductive TimerOp where
  | start
  | stop

/-- Apply one polling call. -/
def applyTimerOp (t : TimerSys) : TimerOp → TimerSys
  | TimerOp.start => sysStartPolling t
  | TimerOp.stop => sysStopPolling t

/-- Apply a sequence of polling calls. -/
def applyTimerOps (t : TimerSys) (ops : List TimerOp) : TimerSys :=
  ops.foldl applyTimerOp t

/-- A freshly constructed manager: no timer, nothing in flight. -/
def initTimerSys : TimerSys :=
  { mgr := { port := 0, csrfToken := "", hasUpdateCallback := false,
             hasErrorCallback := false, pollingTimer := none, isFetching := false }
    liveTimers := []
    nextId := 0 }

/-- Well-formedness tying the manager's held handle to the host's live-timer
table: the live timers are exactly the held handle, and all live handles were
generated before `nextId`. -/
def TimerInv (t : TimerSys) : Prop :=
  t.liveTimers = t.mgr.pollingTimer.toList ∧ ∀ id ∈ t.liveTimers, id < t.nextId

/-! ## Orchestrator error handler (extension.ts 106–121) -/

/-- Does `pat` occur as a contiguous run of `l`? -/
def listHasInfix (pat : List Char) : List Char → Bool
  | [] => pat.isEmpty
  | c :: rest => pat.isPrefixOf (c :: rest) || listHasInfix pat rest

/-- Models JavaScript `line.includes(pat)`. -/
def strContains (s pat : String) : Bool :=
  listHasInfix pat.toList s.toList

/-- The connection-invalidated test of the orchestrator's `onError` handler
(extension.ts 111). -/
def isConnectionSignature (msg : String) : Bool :=
  strContains msg "ECONNREFUSED" || strContains msg "status 403" ||
    strContains msg "status 404"

/-- Orchestrator module state (extension.ts 19–20 plus the quota manager). -/
structure ExtState where
  isInitialized : Bool
  mgr : MgrState
  deriving Repr, DecidableEq

/-- Effects emitted by the orchestrator's error handler. -/
inductive ExtAction where
  | scheduleInit (delayMs : Nat)
  | showError (msg : String)
  deriving Repr, DecidableEq

/-- The `quotaManager.onError` handler of `setupEventListeners`
(extension.ts 106–121): on a connection-refused / 403 / 404 signature it
clears the initialized flag, stops polling and schedules re-initialization
after 1000 ms; otherwise it only shows the generic `Fetch failed` state. -/
def handleQuotaError (st : ExtState) (msg : String) : ExtState × List ExtAction :=
  if isConnectionSignature msg then
    ({ st with isInitialized := false, mgr := stopPolling st.mgr },
      [ExtAction.scheduleInit 1000])
  else
    (st, [ExtAction.showError "Fetch failed"])

/-! ## Process finder (src/src/core/process_finder.ts) -/

/-- Outcome of the 2-second probe of `ProcessFinder.testPort`
(process_finder.ts 198–223): an HTTP response arrives (with or without a
status code), the request errors at connection level, or it times out. -/
inductive ProbeResult where
  | response (statusCode : Option Nat)
  | connError
  | timeout

/-- Embeds the `ProcessFinder.testPort` resolution: `true` exactly when a response with
a defined `statusCode` arrives; error and timeout resolve `false`. -/
def testPort : ProbeResult → Bool
  | ProbeResult.response st => st.isSome
  | ProbeResult.connError => false
  | ProbeResult.timeout => false

/-- Append `p` unless already present (the `if (!portsToTry.includes(p))
portsToTry.push(p)` loop body, and the insertion-ordered semantics of a
JavaScript `Set`). -/
def pushIfAbsent (l : List Int) (p : Int) : List Int :=
  if p ∈ l then l else l ++ [p]

/-- Models `[...new Set(l)]`: deduplicate keeping first occurrences, in order. -/
def jsSetDedup (l : List Int) : List Int :=
  l.foldl pushIfAbsent []

/-- The candidate list built by `ProcessFinder.findConnectPort`
(process_finder.ts 159–177): the lsof-discovered ports first, then the
fallback offsets `base, base+1, base-1, base+2, base+3` not already present,
then deduplicated. -/
def candidatePorts (basePort : Int) (discovered : List Int) : List Int :=
  let offsets := [basePort, basePort + 1, basePort - 1, basePort + 2, basePort + 3]
  jsSetDedup (offsets.foldl pushIfAbsent discovered)

/-- Embeds `ProcessFinder.findConnectPort` (process_finder.ts 159–192): probe the
candidates in order; the first one whose probe resolves `true` is selected,
else `null`. -/
def findConnectPort (basePort : Int) (discovered : List Int)
    (probe : Int → ProbeResult) : Option Int :=
  (candidatePorts basePort discovered).find? fun p => testPort (probe p)

/-- Scan a character list left to right and return the first position's
match of `f`, if any (leftmost-match semantics of `String.prototype.match`). -/
def scanFirst {α : Type} (f : List Char → Option α) : List Char → Option α
  | [] => none
  | c :: rest =>
    match f (c :: rest) with
    | some a => some a
    | none => scanFirst f rest

/-- Decimal digit run to a number. -/
def digitsToNat (l : List Char) : Nat :=
  l.foldl (fun n c => n * 10 + (c.toNat - 48)) 0

/-- Match the regex `--(?:extension|api)_server_port[=\s]+(\d+)` anchored at
the current position: the literal flag, then one or more `=`/whitespace
separators, then one or more digits (the capture).  The separator and digit
classes are disjoint, so maximal runs realize the regex. -/
def matchPortFlagAt (l : List Char) : Option Nat :=
  let tryTail : List Char → Option Nat := fun rest =>
    let seps := rest.takeWhile fun c => c = '=' || c.isWhitespace
    let afterSeps := rest.drop seps.length
    let digits := afterSeps.takeWhile Char.isDigit
    if 0 < seps.length && 0 < digits.length then some (digitsToNat digits) else none
  if "--extension_server_port".toList.isPrefixOf l then
    tryTail (l.drop "--extension_server_port".toList.length)
  else if "--api_server_port".toList.isPrefixOf l then
    tryTail (l.drop "--api_server_port".toList.length)
  else none

/-- The port extraction of `detectProcessInfo` (process_finder.ts 63–69):
first regex match over the target line, then `parseInt` of the capture. -/
def extractPort (line : String) : Option Nat :=
  scanFirst matchPortFlagAt line.toList

/-- Models `workspacePath.replace(/[\/\\:]/g, '_')` (process_finder.ts 36). -/
def sanitizeWorkspacePath (wp : String) : String :=
  String.mk (wp.toList.map fun c =>
    if c = '/' || c = '\\' || c = ':' then '_' else c)

/-- Models `workspacePath.split(/[\\/]/)` (process_finder.ts 38): split at every
slash or backslash, keeping empty pieces. -/
def splitPath (s : String) : List String :=
  let acc := s.toList.foldl
    (fun (acc : List String × List Char) c =>
      if c = '/' || c = '\\' then (acc.1 ++ [String.mk acc.2.reverse], [])
      else (acc.1, c :: acc.2))
    ([], [])
  acc.1 ++ [String.mk acc.2.reverse]

/-- The workspace-targeted line search (process_finder.ts 32–46): first line
mentioning the sanitized path, or — when the trailing folder name is
non-empty (JavaScript truthiness of `folderName`) — that folder name;
`|| ''` turns a miss into the empty string. -/
def findWorkspaceLine (lines : List String) (wp : String) : String :=
  let sanitizedPath := sanitizeWorkspacePath wp
  let folderName := (splitPath wp).getLastD ""
  (lines.find? fun line =>
    strContains line sanitizedPath ||
      (!(folderName = "") && strContains line folderName)).getD ""

/-- The fallback line search (process_finder.ts 49–52): first line carrying
a recognized port flag. -/
def findFlagLine (lines : List String) : String :=
  (lines.find? fun line =>
    strContains line "--extension_server_port" ||
      strContains line "--api_server_port").getD ""

/-- Models `stdout.split('\n')` (process_finder.ts 29): split at every
newline, keeping empty pieces. -/
def splitLines (s : String) : List String :=
  let acc := s.toList.foldl
    (fun (acc : List String × List Char) c =>
      if c = '\n' then (acc.1 ++ [String.mk acc.2.reverse], [])
      else (acc.1, c :: acc.2))
    ([], [])
  acc.1 ++ [String.mk acc.2.reverse]

/-- Target-line selection of `detectProcessInfo` (process_finder.ts 29–57):
the workspace-matched line when a hint is given and matches, else the first
flag-carrying line, else the empty string (→ not found). -/
def selectTargetLine (stdout : String) (workspacePath : Option String) : String :=
  let lines := splitLines stdout
  let t₁ :=
    match workspacePath with
    | some wp => findWorkspaceLine lines wp
    | none => ""
  if t₁ = "" then findFlagLine lines else t₁

/-- Models `parseInt(s, 10)` on a whitespace-free token: optional sign, then
leading digits; `none` is `NaN`. -/
def jsParseInt (s : String) : Option Int :=
  let core : List Char → Option Nat := fun l =>
    let digits := l.takeWhile Char.isDigit
    if 0 < digits.length then some (digitsToNat digits) else none
  match s.toList with
  | '-' :: r => (core r).map fun n => -(n : Int)
  | '+' :: r => (core r).map fun n => (n : Int)
  | r => (core r).map fun n => (n : Int)

/-- Models `targetLine.trim().split(/\s+/)` (process_finder.ts 74): on a trimmed
string the regex split is exactly the whitespace-separated words (the only
divergence, an empty input, yields `[""]` in JavaScript versus `[]` here;
both make `parts[1]` undefined, the only use). -/
def wsWords (s : String) : List String :=
  (s.trim.split Char.isWhitespace).filter fun w => w ≠ ""

/-- The PID extraction of `detectProcessInfo` (process_finder.ts 74–75):
second whitespace-separated column, `parseInt`-ed. -/
def extractPid (line : String) : Option Int :=
  match (wsWords line).get? 1 with
  | some p => jsParseInt p
  | none => none

/-- The class `[a-zA-Z0-9-]`, the token class of the csrf-flag regex. -/
def isCsrfTokenChar (c : Char) : Bool :=
  c.isAlphanum || c = '-'

/-- Match the regex `--csrf[_-]token[=\s]+([a-zA-Z0-9-]+)` anchored at the
current position.  Separator and token classes are disjoint, so maximal runs realize
the regex. -/
def matchCsrfFlagAt (l : List Char) : Option String :=
  if "--csrf".toList.isPrefixOf l then
    match l.drop "--csrf".toList.length with
    | c :: rest =>
      if (c = '_' || c = '-') && "token".toList.isPrefixOf rest then
        let r₂ := rest.drop "token".toList.length
        let seps := r₂.takeWhile fun ch => ch = '=' || ch.isWhitespace
        let r₃ := r₂.drop seps.length
        let tok := r₃.takeWhile isCsrfTokenChar
        if 0 < seps.length && 0 < tok.length then some (String.mk tok) else none
      else none
    | [] => none
  else none

/-- The class `[0-9a-f]`. -/
def isLowerHex (c : Char) : Bool :=
  c.isDigit || ('a' ≤ c && c ≤ 'f')

/-- Take exactly `n` characters all satisfying `p`, returning the rest. -/
def takeExact (p : Char → Bool) : Nat → List Char → Option (List Char × List Char)
  | 0, l => some ([], l)
  | _ + 1, [] => none
  | n + 1, c :: rest =>
    if p c then (takeExact p n rest).map fun x => (c :: x.1, x.2) else none

/-- Match the UUID shape
`[0-9a-f]{8}-[0-9a-f]{4}-[0-9a-f]{4}-[0-9a-f]{4}-[0-9a-f]{12}` anchored at
the current position. -/
def matchUuidAt (l : List Char) : Option String :=
  match takeExact isLowerHex 8 l with
  | none => none
  | some (a, r₁) =>
    match r₁ with
    | '-' :: r₁ =>
      match takeExact isLowerHex 4 r₁ with
      | none => none
      | some (b, r₂) =>
        match r₂ with
        | '-' :: r₂ =>
          match takeExact isLowerHex 4 r₂ with
          | none => none
          | some (c, r₃) =>
            match r₃ with
            | '-' :: r₃ =>
              match takeExact isLowerHex 4 r₃ with
              | none => none
              | some (d, r₄) =>
                match r₄ with
                | '-' :: r₄ =>
                  match takeExact isLowerHex 12 r₄ with
                  | none => none
                  | some (e, _) =>
                    some (String.mk (a ++ ['-'] ++ b ++ ['-'] ++ c ++ ['-'] ++ d ++ ['-'] ++ e))
                | _ => none
            | _ => none
        | _ => none
    | _ => none

/-- Embeds `ProcessFinder.extractCsrfToken` (process_finder.ts 229–244): the csrf
flag capture, else the first UUID-shaped substring, else the fixed
placeholder. -/
def extractCsrfToken (processOutput : String) : String :=
  match scanFirst matchCsrfFlagAt processOutput.toList with
  | some tok => tok
  | none =>
    match scanFirst matchUuidAt processOutput.toList with
    | some uuid => uuid
    | none => "antigravity-quota-monitor"

/-- Embeds `ProcessInfo` (types.ts 70–74). -/
structure ProcessInfo where
  extensionPort : Int
  connectPort : Int
  csrfToken : String
  deriving Repr, DecidableEq

/-- Embeds `ProcessFinder.detectProcessInfo` (process_finder.ts 20–115).
Inputs model the effectful steps: `psResult` is the `ps aux | grep ...`
stdout or the exception `exec` rejected with; `lsofPorts` is the port list
parsed from lsof output or the exception that enumeration rejected with
(`findPortsUsingLsof` itself catches and returns `[]`, and the caller's
`try`/`catch` leaves `discoveredPorts = []` too — lsof-output parsing is
abstracted to its resulting list, which no claim touches); `probe` is the
`testPort` transport.  The function is total: every failure path collapses
to `none`, matching the source's `try`/`catch` and early `return null`s. -/
def detectProcessInfo (psResult : Except String String)
    (workspacePath : Option String) (lsofPorts : Except String (List Int))
    (probe : Int → ProbeResult) : Option ProcessInfo :=
  match psResult with
  | Except.error _ => none
  | Except.ok stdout =>
    let targetLine := selectTargetLine stdout workspacePath
    if targetLine = "" then none
    else
      match extractPort targetLine with
      | none => none
      | some extensionPort =>
        let discoveredPorts : List Int :=
          match extractPid targetLine with
          | some pid =>
            if 0 < pid then
              match lsofPorts with
              | Except.ok ps => ps
              | Except.error _ => []
            else []
          | none => []
        match findConnectPort (extensionPort : Int) discoveredPorts probe with
        | none => none
        | some connectPort =>
          some { extensionPort := (extensionPort : Int)
                 connectPort := connectPort
                 csrfToken := extractCsrfToken targetLine }

/-! ## Concrete instances used by witnesses -/

/-- A model entry whose `quotaInfo` carries no `remainingFraction` and no
explicit exhausted status. -/
def c1QuotaInfo : QuotaInfoRaw :=
  { remainingFraction := none, status := none, resetTime := 0 }

/-- A server model entry wrapping `c1QuotaInfo`. -/
def c1Model : RawModelConfig :=
  { label := "Gemini 3 Pro", modelOrAlias := none, quotaInfo := some c1QuotaInfo }

/-- A plan with a 300-credit monthly quota. -/
def c4PlanInfo : PlanInfo := { monthlyPromptCredits := some 300 }

/-- A plan status carrying `c4PlanInfo` and 100 available credits. -/
def c4PlanStatus : PlanStatus :=
  { planInfo := some c4PlanInfo, availablePromptCredits := some 100 }

/-- A response supplying both a positive monthly figure and an available
figure. -/
def c4Data : ServerUserStatusResponse :=
  { userStatus :=
      { planStatus := some c4PlanStatus
        cascadeModelConfigData := none
        email := none
        user := none
        userProfile := none
        user_profile := none }
    user := none
    userProfile := none
    user_status := none }

/-- A freshly configured manager with both callbacks registered and nothing
in flight. -/
def freshMgr : MgrState :=
  { port := 42100, csrfToken := "token", hasUpdateCallback := true,
    hasErrorCallback := true, pollingTimer := none, isFetching := false }

/-- The same manager while a fetch is in flight. -/
def busyMgr : MgrState :=
  { freshMgr with isFetching := true }

/-- A probe transport under which 5000 refuses, 5001 times out, and 4999
answers with HTTP 404. -/
def c7Probe (p : Int) : ProbeResult :=
  if p = 4999 then ProbeResult.response (some 404)
  else if p = 5000 then ProbeResult.connError
  else ProbeResult.timeout

/-- A probe transport under which every port times out. -/
def deadProbe (_ : Int) : ProbeResult :=
  ProbeResult.timeout

/-- The HTTPS requests among a list of emitted actions. -/
def issuedRequests (l : List MgrAction) : List MgrAction :=
  l.filter fun a =>
    match a with
    | MgrAction.httpRequest => true
    | _ => false

/-! ## Theorems -/

/-- C1: for a server model entry carrying a `quotaInfo` sub-object but no
`remainingFraction`, the claim expects `remainingFraction = 0`, `isNA = true`
and not exhausted unless `status` is explicitly `EXHAUSTED`.  The code
defaults the raw fraction to the number `0` *before* its
`!== undefined` / `=== undefined` tests, so `isNA` is identically false for
every entry, and an absent fraction (defaulted to `0 ≤ 0.001`) marks the
entry exhausted even without an `EXHAUSTED` status — contradicting both the
spec and the source's own comment that such entries are the not-applicable
case.  This theorem records the code's actual behaviour. -/
theorem C1_missing_fraction_behavior :
    (∀ (now : Int) (locale : Int → String) (m : RawModelConfig) (qi : QuotaInfoRaw),
      (parseModel now locale m qi).isNA = false) ∧
    (∀ (now : Int) (locale : Int → String) (m : RawModelConfig) (qi : QuotaInfoRaw),
      qi.remainingFraction = none → qi.status ≠ some "EXHAUSTED" →
      (parseModel now locale m qi).remainingFraction = 0 ∧
      (parseModel now locale m qi).isNA = false ∧
      (parseModel now locale m qi).isExhausted = true) := by
  constructor
  · intro now locale m qi
    simp [parseModel]
  · intro now locale m qi hfrac _hstat
    refine ⟨?_, ?_, ?_⟩
    · simp [parseModel, hfrac]
    · simp [parseModel]
    · simp [parseModel, hfrac]

/-- C1 witness: the failing input evaluated — an entry with `quotaInfo`
present, `remainingFraction` absent and no `EXHAUSTED` status yields
`remainingFraction = 0`, `isNA = false` and `isExhausted = true`. -/
theorem C1_missing_fraction_behavior_witness :
    (parseModel 0 (fun _ => "") c1Model c1QuotaInfo).remainingFraction = 0 ∧
    (parseModel 0 (fun _ => "") c1Model c1QuotaInfo).isNA = false ∧
    (parseModel 0 (fun _ => "") c1Model c1QuotaInfo).isExhausted = true :=
  C1_missing_fraction_behavior.2 0 (fun _ => "") c1Model c1QuotaInfo rfl
    (by decide)

/-- C5 counterexample: a duration of 3 570 000 ms (59.5 minutes) is under
60 minutes, yet `formatTime` renders it as hours+minutes (`1h 0m`), not as
minutes — because the code branches on the *ceiling* of the minute count. -/
theorem C5_formatTime_counterexample :
    (3570000 : Int) < 60 * 60000 ∧ formatTime 3570000 "X" = "1h 0m (X)" := by
  exact ⟨by decide, rfl⟩

/-- C5 (amended): `formatTime` returns `Ready` when `ms ≤ 0`; otherwise,
writing `mins` for the *ceiling* of the duration in minutes, it renders
minutes when `mins < 60`, hours+minutes when `mins < 1440`, and days+hours
otherwise, followed by the localized reset string in parentheses; in
particular 45 minutes yields `45m (...)`, 90 minutes yields `1h 30m (...)`,
and 25 hours yields `1d 1h (...)`. -/
theorem C5_formatTime_spec (ms : Int) (d : String) :
    (ms ≤ 0 → formatTime ms d = "Ready") ∧
    (0 < ms →
      ((ms.toNat + 59999) / 60000 < 60 →
        formatTime ms d = toString ((ms.toNat + 59999) / 60000) ++ "m (" ++ d ++ ")") ∧
      (60 ≤ (ms.toNat + 59999) / 60000 → (ms.toNat + 59999) / 60000 < 1440 →
        formatTime ms d =
          toString ((ms.toNat + 59999) / 60000 / 60) ++ "h " ++
            toString ((ms.toNat + 59999) / 60000 % 60) ++ "m (" ++ d ++ ")") ∧
      (1440 ≤ (ms.toNat + 59999) / 60000 →
        formatTime ms d =
          toString ((ms.toNat + 59999) / 60000 / 1440) ++ "d " ++
            toString ((ms.toNat + 59999) / 60000 % 1440 / 60) ++ "h (" ++ d ++ ")")) ∧
    formatTime 2700000 d = "45m (" ++ d ++ ")" ∧
    formatTime 5400000 d = "1h 30m (" ++ d ++ ")" ∧
    formatTime 90000000 d = "1d 1h (" ++ d ++ ")" := by
  refine ⟨?_, ?_, rfl, rfl, rfl⟩
  · intro h
    simp [formatTime, h]
  · intro hpos
    have hn : ¬ ms ≤ 0 := by omega
    refine ⟨?_, ?_, ?_⟩
    · intro h1
      simp [formatTime, hn, h1, String.append_assoc]
    · intro h1 h2
      have hn1 : ¬ (ms.toNat + 59999) / 60000 < 60 := by omega
      simp [formatTime, hn, hn1, h2, String.append_assoc]
    · intro h1
      have hn1 : ¬ (ms.toNat + 59999) / 60000 < 60 := by omega
      have hn2 : ¬ (ms.toNat + 59999) / 60000 < 24 * 60 := by omega
      simp [formatTime, hn, hn1, hn2, String.append_assoc]

/-- C5 witness: the amended branch behaviour evaluated at concrete
durations — negative input, 45 minutes, 90 minutes and 25 hours. -/
theorem C5_formatTime_spec_witness :
    formatTime (-5) "X" = "Ready" ∧
    formatTime 2700000 "X" = "45m (X)" ∧
    formatTime 5400000 "X" = "1h 30m (X)" ∧
    formatTime 90000000 "X" = "1d 1h (X)" :=
  ⟨(C5_formatTime_spec (-5) "X").1 (by decide),
    ((C5_formatTime_spec 2700000 "X").2.1 (by decide)).1 (by decide),
    (((C5_formatTime_spec 5400000 "X").2.1 (by decide)).2.1 (by decide)) (by decide),
    ((C5_formatTime_spec 90000000 "X").2.1 (by decide)).2.2 (by decide)⟩

/-- C4: the snapshot contains a `promptCredits` object iff the response
supplies a plan whose monthly figure is defined and positive together with a
defined `availablePromptCredits`; whenever present,
`usedPercentage = (monthly - available) / monthly * 100`,
`remainingPercentage = available / monthly * 100`, and the two sum to 100
(exactly, in the rational model — floating rounding is the only slack in the
source). -/
theorem C4_promptCredits (data : ServerUserStatusResponse) :
    ((parsePromptCredits data).isSome ↔
      ∃ ps pi monthly available,
        data.userStatus.planStatus = some ps ∧ ps.planInfo = some pi ∧
        ps.availablePromptCredits = some available ∧
        pi.monthlyPromptCredits = some monthly ∧ 0 < monthly) ∧
    (∀ ps pi monthly available,
      data.userStatus.planStatus = some ps → ps.planInfo = some pi →
      ps.availablePromptCredits = some available →
      pi.monthlyPromptCredits = some monthly → 0 < monthly →
      parsePromptCredits data = some
        { available := available
          monthly := monthly
          usedPercentage := (monthly - available) / monthly * 100
          remainingPercentage := available / monthly * 100 } ∧
      (monthly - available) / monthly * 100 + available / monthly * 100 = 100) := by
  constructor
  · constructor
    · intro hsome
      unfold parsePromptCredits at hsome
      cases hps : data.userStatus.planStatus with
      | none => rw [hps] at hsome; simp at hsome
      | some ps =>
        rw [hps] at hsome
        cases hpi : ps.planInfo with
        | none => simp [hpi] at hsome
        | some pi =>
          cases hac : ps.availablePromptCredits with
          | none => simp [hpi, hac] at hsome
          | some available =>
            cases hm : pi.monthlyPromptCredits with
            | none => simp [hpi, hac, hm] at hsome
            | some monthly =>
              by_cases h0 : 0 < monthly
              · exact ⟨ps, pi, monthly, available, rfl, hpi, hac, hm, h0⟩
              · simp [hpi, hac, hm, h0] at hsome
    · rintro ⟨ps, pi, monthly, available, hps, hpi, hac, hm, h0⟩
      unfold parsePromptCredits
      rw [hps]
      simp [hpi, hac, hm, h0]
  · intro ps pi monthly available hps hpi hac hm h0
    have hmne : monthly ≠ 0 := ne_of_gt h0
    constructor
    · unfold parsePromptCredits
      rw [hps]
      simp [hpi, hac, hm, h0]
    · field_simp
      ring

/-- C4 witness: a response with `monthly = 300` and `available = 100`
produces prompt credits whose used and remaining percentages sum to 100. -/
theorem C4_promptCredits_witness :
    parsePromptCredits c4Data = some
      { available := 100
        monthly := 300
        usedPercentage := (300 - 100) / 300 * 100
        remainingPercentage := 100 / 300 * 100 } ∧
    ((300 : ℚ) - 100) / 300 * 100 + 100 / 300 * 100 = 100 :=
  (C4_promptCredits c4Data).2 c4PlanStatus c4PlanInfo 300 100 rfl rfl rfl rfl
    (by norm_num)

/-- C2: invoking `fetchQuota` while a previous fetch is in flight is a
no-op — no request, no queueing, no publication, state unchanged — and a
poll fetch overlapped by a manual refresh issues exactly one request and
publishes exactly one result. -/
theorem C2_single_flight (now : Int) (locale : Int → String) (s : MgrState)
    (r : Except String ServerUserStatusResponse) :
    (s.isFetching = true → mgrStep now locale s MgrEvent.fetchCall = (s, [])) ∧
    (s.isFetching = false → s.hasUpdateCallback = true → s.hasErrorCallback = true →
      (published (runMgr now locale s
        [MgrEvent.fetchCall, MgrEvent.fetchCall, MgrEvent.complete r]).2).length = 1 ∧
      (issuedRequests (runMgr now locale s
        [MgrEvent.fetchCall, MgrEvent.fetchCall, MgrEvent.complete r]).2).length = 1) := by
  constructor
  · intro h
    simp [mgrStep, fetchQuotaStart, h]
  · intro hf hu he
    cases r with
    | ok data =>
      simp [runMgr, mgrStep, fetchQuotaStart, fetchQuotaFinish, hf, hu,
        published, issuedRequests]
    | error msg =>
      simp [runMgr, mgrStep, fetchQuotaStart, fetchQuotaFinish, hf, he,
        published, issuedRequests]

/-- C2 witness: a busy manager's overlapping call is a no-op, and the
poll-plus-manual scenario on a fresh manager publishes exactly one result. -/
theorem C2_single_flight_witness :
    mgrStep 0 (fun _ => "") busyMgr MgrEvent.fetchCall = (busyMgr, []) ∧
    (published (runMgr 0 (fun _ => "") freshMgr
      [MgrEvent.fetchCall, MgrEvent.fetchCall,
        MgrEvent.complete (Except.error "boom")]).2).length = 1 :=
  ⟨(C2_single_flight 0 (fun _ => "") busyMgr (Except.error "boom")).1 rfl,
    ((C2_single_flight 0 (fun _ => "") freshMgr (Except.error "boom")).2
      rfl rfl rfl).1⟩

/-- C9: `stopPolling` only clears the repeating timer — port, token,
registered callbacks and the in-flight flag are unchanged — and a fetch in
flight when `stopPolling` is called still publishes its result (snapshot or
error) through the callback when it completes. -/
theorem C9_stopPolling_frame (now : Int) (locale : Int → String) (s : MgrState)
    (r : Except String ServerUserStatusResponse) :
    stopPolling s = { s with pollingTimer := none } ∧
    (stopPolling s).port = s.port ∧
    (stopPolling s).csrfToken = s.csrfToken ∧
    (stopPolling s).hasUpdateCallback = s.hasUpdateCallback ∧
    (stopPolling s).hasErrorCallback = s.hasErrorCallback ∧
    (stopPolling s).isFetching = s.isFetching ∧
    (s.isFetching = true → s.hasUpdateCallback = true → s.hasErrorCallback = true →
      (published (mgrStep now locale (stopPolling s) (MgrEvent.complete r)).2).length = 1) := by
  refine ⟨rfl, rfl, rfl, rfl, rfl, rfl, ?_⟩
  intro hf hu he
  cases r with
  | ok data =>
    simp [mgrStep, stopPolling, fetchQuotaFinish, hf, hu, published]
  | error msg =>
    simp [mgrStep, stopPolling, fetchQuotaFinish, hf, he, published]

/-- C9 witness: stopping polling on a busy manager leaves its fields intact
and its in-flight fetch still publishes one result on completion. -/
theorem C9_stopPolling_frame_witness :
    stopPolling busyMgr = { busyMgr with pollingTimer := none } ∧
    (published (mgrStep 0 (fun _ => "") (stopPolling busyMgr)
      (MgrEvent.complete (Except.error "boom"))).2).length = 1 :=
  ⟨(C9_stopPolling_frame 0 (fun _ => "") busyMgr (Except.error "boom")).1,
    (C9_stopPolling_frame 0 (fun _ => "") busyMgr (Except.error "boom")).2.2.2.2.2.2
      rfl rfl rfl⟩

/-- Applying one polling call preserves the timer-table invariant. -/
theorem timerInv_applyTimerOp (t : TimerSys) (op : TimerOp) (h : TimerInv t) :
    TimerInv (applyTimerOp t op) := by
  obtain ⟨hlive, hbound⟩ := h
  cases op with
  | stop =>
    cases hpt : t.mgr.pollingTimer with
    | none =>
      refine ⟨?_, ?_⟩
      · simp [applyTimerOp, sysStopPolling, stopPolling, hpt, hlive]
      · intro id hid
        simp [applyTimerOp, sysStopPolling, hpt] at hid
        exact hbound id hid
    | some tid =>
      refine ⟨?_, ?_⟩
      · rw [hpt] at hlive
        simp [applyTimerOp, sysStopPolling, stopPolling, hpt, hlive]
      · intro id hid
        rw [hpt] at hlive
        simp [applyTimerOp, sysStopPolling, hpt, hlive] at hid
  | start =>
    cases hpt : t.mgr.pollingTimer with
    | none =>
      refine ⟨?_, ?_⟩
      · rw [hpt] at hlive
        simp [applyTimerOp, sysStartPolling, sysStopPolling, stopPolling, hpt, hlive]
      · intro id hid
        rw [hpt] at hlive
        simp [applyTimerOp, sysStartPolling, sysStopPolling, stopPolling, hpt, hlive] at hid
        simp [applyTimerOp, sysStartPolling, sysStopPolling, stopPolling, hpt, hid]
    | some tid =>
      refine ⟨?_, ?_⟩
      · rw [hpt] at hlive
        simp [applyTimerOp, sysStartPolling, sysStopPolling, stopPolling, hpt, hlive]
      · intro id hid
        rw [hpt] at hlive
        simp [applyTimerOp, sysStartPolling, sysStopPolling, stopPolling, hpt, hlive] at hid
        simp [applyTimerOp, sysStartPolling, sysStopPolling, stopPolling, hpt, hid]

/-- Applying any sequence of polling calls preserves the invariant. -/
theorem timerInv_applyTimerOps (ops : List TimerOp) (t : TimerSys)
    (h : TimerInv t) : TimerInv (applyTimerOps t ops) := by
  induction ops generalizing t with
  | nil => exact h
  | cons op rest ih => exact ih _ (timerInv_applyTimerOp t op h)

/-- C10: after any sequence of `startPolling` / `stopPolling` calls from a
fresh manager, the host's live-timer table matches the held handle — in
particular at most one polling timer is ever active (each `startPolling`
cancels the previous timer before installing the new one). -/
theorem C10_at_most_one_timer (ops : List TimerOp) :
    TimerInv (applyTimerOps initTimerSys ops) ∧
    (applyTimerOps initTimerSys ops).liveTimers.length ≤ 1 := by
  have hinit : TimerInv initTimerSys := by
    constructor
    · rfl
    · intro id hid
      simp [initTimerSys] at hid
  have h := timerInv_applyTimerOps ops initTimerSys hinit
  refine ⟨h, ?_⟩
  rw [h.1]
  cases (applyTimerOps initTimerSys ops).mgr.pollingTimer with
  | none => simp
  | some tid => simp

/-- C3: when the poller's error message carries a connection-refused, 403 or
404 signature, the orchestrator's handler clears the initialized flag, stops
polling (the timer is cleared) and schedules re-initialization after a short
(1000 ms) delay, showing no error state; for any other message it only shows
the generic `Fetch failed` display state, leaving the initialized flag and
the polling timer untouched.  The concrete conjuncts check representative
messages of each class, including the malformed-JSON one. -/
theorem C3_reconnect_policy (st : ExtState) (msg : String) :
    (isConnectionSignature msg = true →
      handleQuotaError st msg =
        ({ st with isInitialized := false, mgr := stopPolling st.mgr },
          [ExtAction.scheduleInit 1000]) ∧
      (handleQuotaError st msg).1.isInitialized = false ∧
      (handleQuotaError st msg).1.mgr.pollingTimer = none) ∧
    (isConnectionSignature msg = false →
      handleQuotaError st msg = (st, [ExtAction.showError "Fetch failed"])) ∧
    isConnectionSignature "connect ECONNREFUSED 127.0.0.1:42100" = true ∧
    isConnectionSignature "Request failed with status 403: denied" = true ∧
    isConnectionSignature "Request failed with status 404: gone" = true ∧
    isConnectionSignature "Invalid JSON response" = false ∧
    isConnectionSignature "Request timeout" = false := by
  refine ⟨?_, ?_, by decide, by decide, by decide, by decide, by decide⟩
  · intro h
    refine ⟨?_, ?_, ?_⟩ <;> simp [handleQuotaError, h, stopPolling]
  · intro h
    simp [handleQuotaError, h]

/-- C3 witness: the handler evaluated on a connection-refused message and on
a malformed-JSON message. -/
theorem C3_reconnect_policy_witness :
    handleQuotaError { isInitialized := true, mgr := busyMgr }
        "connect ECONNREFUSED 127.0.0.1:42100" =
      ({ isInitialized := false, mgr := stopPolling busyMgr },
        [ExtAction.scheduleInit 1000]) ∧
    handleQuotaError { isInitialized := true, mgr := busyMgr }
        "Invalid JSON response" =
      ({ isInitialized := true, mgr := busyMgr },
        [ExtAction.showError "Fetch failed"]) :=
  ⟨((C3_reconnect_policy { isInitialized := true, mgr := busyMgr }
      "connect ECONNREFUSED 127.0.0.1:42100").1 (by decide)).1,
    (C3_reconnect_policy { isInitialized := true, mgr := busyMgr }
      "Invalid JSON response").2.1 (by decide)⟩

/-- C6: every fetch failure — connection error, timeout, non-2xx (≥ 400)
status, or JSON-parse failure — is normalized by the request layer to a
single error value with a descriptive message and delivered through the
error callback; every fetch run (success included) publishes exactly one
result, and the embedding of `fetchQuota` is a total function into emitted
actions: the source's `try`/`catch`/`finally` leaves no exceptional path to
the polling timer loop. -/
theorem C6_error_normalization (now : Int) (locale : Int → String)
    (parseJson : String → Option ServerUserStatusResponse) (s : MgrState)
    (hf : s.isFetching = false) (hu : s.hasUpdateCallback = true)
    (he : s.hasErrorCallback = true) :
    (∀ ev, (published (fetchQuotaRun now locale parseJson s ev).2).length = 1) ∧
    (∀ msg, published (fetchQuotaRun now locale parseJson s (HttpEvent.connError msg)).2
      = [MgrAction.publishError msg]) ∧
    (published (fetchQuotaRun now locale parseJson s HttpEvent.timeout).2
      = [MgrAction.publishError "Request timeout"]) ∧
    (∀ c body, 400 ≤ c →
      published (fetchQuotaRun now locale parseJson s
          (HttpEvent.response (some c) body)).2
        = [MgrAction.publishError
            ("Request failed with status " ++ toString c ++ ": " ++ body)]) ∧
    (∀ stc body, parseJson body = none → (∀ c, stc = some c → c < 400) →
      published (fetchQuotaRun now locale parseJson s
          (HttpEvent.response stc body)).2
        = [MgrAction.publishError "Invalid JSON response"]) := by
  refine ⟨?_, ?_, ?_, ?_, ?_⟩
  · intro ev
    cases ev with
    | connError msg =>
      simp [fetchQuotaRun, request, fetchQuotaFinish, hf, he, published]
    | timeout =>
      simp [fetchQuotaRun, request, fetchQuotaFinish, hf, he, published]
    | response stc body =>
      cases stc with
      | none =>
        cases hp : parseJson body with
        | none =>
          simp [fetchQuotaRun, request, fetchQuotaFinish, hf, he, hp, published]
        | some data =>
          simp [fetchQuotaRun, request, fetchQuotaFinish, hf, hu, hp, published]
      | some c =>
        by_cases hc : 400 ≤ c
        · simp [fetchQuotaRun, request, fetchQuotaFinish, hf, he, hc, published]
        · cases hp : parseJson body with
          | none =>
            simp [fetchQuotaRun, request, fetchQuotaFinish, hf, he, hc, hp, published]
          | some data =>
            simp [fetchQuotaRun, request, fetchQuotaFinish, hf, hu, hc, hp, published]
  · intro msg
    simp [fetchQuotaRun, request, fetchQuotaFinish, hf, he, published]
  · simp [fetchQuotaRun, request, fetchQuotaFinish, hf, he, published]
  · intro c body hc
    simp [fetchQuotaRun, request, fetchQuotaFinish, hf, he, hc, published]
  · intro stc body hp hlt
    cases stc with
    | none =>
      simp [fetchQuotaRun, request, fetchQuotaFinish, hf, he, hp, published]
    | some c =>
      have hc : ¬ 400 ≤ c := by
        have := hlt c rfl
        omega
      simp [fetchQuotaRun, request, fetchQuotaFinish, hf, he, hc, hp, published]

/-- C6 counterexample: a response with the non-2xx status 302 whose body
parses as JSON is *not* normalized to an error — the guard in
`QuotaManager.request` only rejects statuses ≥ 400, so the fetch publishes a
snapshot through the update callback instead of the error callback. -/
theorem C6_non2xx_counterexample :
    published (fetchQuotaRun 0 (fun _ => "") (fun _ => some c4Data) freshMgr
        (HttpEvent.response (some 302) "redirect-body")).2
      = [MgrAction.publishUpdate (parseResponse 0 (fun _ => "") c4Data)] := by
  simp [fetchQuotaRun, request, fetchQuotaFinish, freshMgr, published]

/-- C6 witness: the four failure classes evaluated on a fresh manager with a
parser that rejects every body. -/
theorem C6_error_normalization_witness :
    published (fetchQuotaRun 0 (fun _ => "") (fun _ => none) freshMgr
        (HttpEvent.connError "connect ECONNREFUSED 127.0.0.1:42100")).2
      = [MgrAction.publishError "connect ECONNREFUSED 127.0.0.1:42100"] ∧
    published (fetchQuotaRun 0 (fun _ => "") (fun _ => none) freshMgr
        HttpEvent.timeout).2
      = [MgrAction.publishError "Request timeout"] ∧
    published (fetchQuotaRun 0 (fun _ => "") (fun _ => none) freshMgr
        (HttpEvent.response (some 403) "denied")).2
      = [MgrAction.publishError ("Request failed with status " ++ toString 403 ++ ": " ++ "denied")] ∧
    published (fetchQuotaRun 0 (fun _ => "") (fun _ => none) freshMgr
        (HttpEvent.response (some 200) "not json")).2
      = [MgrAction.publishError "Invalid JSON response"] :=
  ⟨(C6_error_normalization 0 (fun _ => "") (fun _ => none) freshMgr rfl rfl rfl).2.1
      "connect ECONNREFUSED 127.0.0.1:42100",
    (C6_error_normalization 0 (fun _ => "") (fun _ => none) freshMgr rfl rfl rfl).2.2.1,
    (C6_error_normalization 0 (fun _ => "") (fun _ => none) freshMgr rfl rfl rfl).2.2.2.1
      403 "denied" (by decide),
    (C6_error_normalization 0 (fun _ => "") (fun _ => none) freshMgr rfl rfl rfl).2.2.2.2
      (some 200) "not json" rfl (by intro c hc; cases hc; decide)⟩

/-- Folding `pushIfAbsent` only ever appends to the accumulator. -/
theorem foldl_pushIfAbsent_append (l acc : List Int) :
    ∃ rest, l.foldl pushIfAbsent acc = acc ++ rest := by
  induction l generalizing acc with
  | nil => exact ⟨[], by simp⟩
  | cons c cs ih =>
    simp only [List.foldl_cons]
    by_cases hc : c ∈ acc
    · have hp : pushIfAbsent acc c = acc := by simp [pushIfAbsent, hc]
      rw [hp]
      exact ih acc
    · have hp : pushIfAbsent acc c = acc ++ [c] := by simp [pushIfAbsent, hc]
      rw [hp]
      obtain ⟨rest, hrest⟩ := ih (acc ++ [c])
      exact ⟨[c] ++ rest, by rw [hrest, List.append_assoc]⟩

/-- C7: with declared port 5000 and no lsof-discovered ports the candidate
list is exactly `[5000, 5001, 4999, 5002, 5003]` in that order; the selected
connect port is the first candidate whose probe resolves `true`, and a probe
resolves `true` exactly when any HTTP status arrives (connection errors and
timeouts resolve `false`); in general the deduplicated discovered ports come
first in the candidate list. -/
theorem C7_connect_port_candidates :
    candidatePorts 5000 [] = [5000, 5001, 4999, 5002, 5003] ∧
    (∀ probe : Int → ProbeResult, findConnectPort 5000 [] probe =
      List.find? (fun p => testPort (probe p)) [5000, 5001, 4999, 5002, 5003]) ∧
    (∀ (b : Int) (d : List Int), ∃ rest, candidatePorts b d = jsSetDedup d ++ rest) ∧
    (∀ r, testPort r = true ↔ ∃ c, r = ProbeResult.response (some c)) := by
    refine ⟨by decide, ?_, ?_, ?_⟩
    · intro probe
      show (candidatePorts 5000 []).find? (fun p => testPort (probe p)) = _
      have h : candidatePorts 5000 [] = [5000, 5001, 4999, 5002, 5003] := by decide
      rw [h]
    · intro b d
      show ∃ rest,
        jsSetDedup (List.foldl pushIfAbsent d [b, b + 1, b - 1, b + 2, b + 3]) =
          jsSetDedup d ++ rest
      obtain ⟨r₀, hr₀⟩ :=
        foldl_pushIfAbsent_append [b, b + 1, b - 1, b + 2, b + 3] d
      rw [hr₀]
      unfold jsSetDedup
      rw [List.foldl_append]
      obtain ⟨r₁, hr₁⟩ := foldl_pushIfAbsent_append r₀ (d.foldl pushIfAbsent [])
      rw [hr₁]
      exact ⟨r₁, rfl⟩
    · intro r
      cases r with
      | response st =>
        cases st with
        | none => simp [testPort]
        | some c => simp [testPort]
      | connError => simp [testPort]
      | timeout => simp [testPort]

/-- C7 witness: under a transport where 5000 refuses, 5001 times out and
4999 answers HTTP 404, the selected connect port is 4999 — the first
candidate in fallback order that returns any HTTP status. -/
theorem C7_connect_port_candidates_witness :
    findConnectPort 5000 [] c7Probe = some 4999 :=
  (C7_connect_port_candidates.2.1 c7Probe).trans (by decide)

/-- C8: `detectProcessInfo` collapses every failure mode to `none` — an
exception from process enumeration, no matching process line, no port-flag
match on the selected line, and no reachable candidate port; the embedding
is a total function into `Option ProcessInfo`, mirroring the source's
`try`/`catch` and early `return null`s: nothing is thrown to the caller. -/
theorem C8_detect_failure_collapse :
    (∀ (e : String) (wp : Option String) (ls : Except String (List Int))
        (pr : Int → ProbeResult),
      detectProcessInfo (Except.error e) wp ls pr = none) ∧
    (∀ (out : String) (wp : Option String) (ls : Except String (List Int))
        (pr : Int → ProbeResult), selectTargetLine out wp = "" →
      detectProcessInfo (Except.ok out) wp ls pr = none) ∧
    (∀ (out : String) (wp : Option String) (ls : Except String (List Int))
        (pr : Int → ProbeResult), extractPort (selectTargetLine out wp) = none →
      detectProcessInfo (Except.ok out) wp ls pr = none) ∧
    (∀ (out : String) (wp : Option String) (ls : Except String (List Int))
        (pr : Int → ProbeResult), (∀ p, testPort (pr p) = false) →
      detectProcessInfo (Except.ok out) wp ls pr = none) := by
  refine ⟨?_, ?_, ?_, ?_⟩
  · intro e wp ls pr
    rfl
  · intro out wp ls pr h
    simp [detectProcessInfo, h]
  · intro out wp ls pr h
    by_cases ht : selectTargetLine out wp = ""
    · simp [detectProcessInfo, ht]
    · simp [detectProcessInfo, ht, h]
  · intro out wp ls pr h
    have hfind : ∀ (b : Int) (d : List Int), findConnectPort b d pr = none := by
      intro b d
      unfold findConnectPort
      rw [List.find?_eq_none]
      intro p _
      simp [h p]
    by_cases ht : selectTargetLine out wp = ""
    · simp [detectProcessInfo, ht]
    · cases hport : extractPort (selectTargetLine out wp) with
      | none => simp [detectProcessInfo, ht, hport]
      | some port => simp [detectProcessInfo, ht, hport, hfind]

/-- C8 witness: the four failure modes evaluated — a rejected `ps`
invocation, output with no flag-carrying line, a line whose flag has no
parsable port, and a flagged line with every candidate port unreachable. -/
theorem C8_detect_failure_collapse_witness :
    detectProcessInfo (Except.error "spawn failed") none
      (Except.ok []) deadProbe = none ∧
    detectProcessInfo (Except.ok "user 1 /bin/bash") none
      (Except.ok []) deadProbe = none ∧
    detectProcessInfo (Except.ok "user 1 server --extension_server_port") none
      (Except.ok []) deadProbe = none ∧
    detectProcessInfo (Except.ok "user 42 server --extension_server_port=5000") none
      (Except.ok []) deadProbe = none :=
  ⟨C8_detect_failure_collapse.1 "spawn failed" none (Except.ok []) deadProbe,
    C8_detect_failure_collapse.2.1 "user 1 /bin/bash" none (Except.ok []) deadProbe
      (by decide),
    C8_detect_failure_collapse.2.2.1 "user 1 server --extension_server_port" none
      (Except.ok []) deadProbe (by decide),
    C8_detect_failure_collapse.2.2.2 "user 42 server --extension_server_port=5000" none
      (Except.ok []) deadProbe (fun p => rfl)⟩

end AGInsights
